import Mathlib

/-!
Verification of the shared CPU/GPU data contracts of the reactor renderer
(Sources/Renderer/ShaderTypes.h) and of the CRT post-process pipeline the
specification describes around them.

The header declares five C structs over the Apple simd types.  Per the simd
library (simd/simd.h):
  float          size 4,  alignment 4
  simd_float2    size 8,  alignment 8
  simd_float3    size 16, alignment 16  (three lanes plus one unused lane)
  simd_float4x4  size 64, alignment 16  (four simd_float4 columns)
Struct layout follows the usual C rules: each field is placed at the next
offset aligned to its alignment; the struct alignment is the maximum field
alignment; sizeof rounds the end offset up to the struct alignment.
-/

namespace Reactor

/-- The C scalar and simd vector types that occur in ShaderTypes.h. -/
inductive CTy where
  | float
  | float2
  | float3
  | float4x4
deriving DecidableEq

/-- Byte size of each C type, from simd/simd.h. -/
def CTy.byteSize : CTy → Nat
  | .float => 4
  | .float2 => 8
  | .float3 => 16
  | .float4x4 => 64

/-- Byte alignment of each C type, from simd/simd.h. -/
def CTy.byteAlign : CTy → Nat
  | .float => 4
  | .float2 => 8
  | .float3 => 16
  | .float4x4 => 16

/-- One declared struct field: a name and a C type. -/
structure CField where
  name : String
  ty : CTy
deriving DecidableEq

/-- Whether the struct is vertex-buffer data or a uniform record, as the
header comments classify each struct. -/
inductive CKind where
  | vertex
  | uniform
deriving DecidableEq

/-- A struct declaration of the header: its name, classification and ordered
field list. -/
structure CStruct where
  name : String
  kind : CKind
  fields : List CField
deriving DecidableEq

/-- Round `off` up to the next multiple of `a`. -/
def alignTo (off a : Nat) : Nat := ((off + a - 1) / a) * a

/-- Offsets of all fields, given the running offset reached so far. -/
def fieldOffsetsAux : List CField → Nat → List (String × CTy × Nat)
  | [], _ => []
  | f :: fs, off =>
      let o := alignTo off f.ty.byteAlign
      (f.name, f.ty, o) :: fieldOffsetsAux fs (o + f.ty.byteSize)

/-- Byte offset of every field of a struct, in declaration order. -/
def fieldOffsets (fs : List CField) : List (String × CTy × Nat) :=
  fieldOffsetsAux fs 0

/-- End offset after laying out all fields starting from `off`. -/
def fieldsEnd : List CField → Nat → Nat
  | [], off => off
  | f :: fs, off => fieldsEnd fs (alignTo off f.ty.byteAlign + f.ty.byteSize)

/-- Alignment of a struct: the maximum alignment of its fields. -/
def structAlign (fs : List CField) : Nat :=
  fs.foldr (fun f a => max f.ty.byteAlign a) 1

/-- sizeof of a struct: the end offset rounded up to the struct alignment. -/
def structSize (fs : List CField) : Nat :=
  alignTo (fieldsEnd fs 0) (structAlign fs)

/-- Byte offset of the named field, when the struct has it. -/
def offsetOf (fs : List CField) (n : String) : Option Nat :=
  (fieldOffsets fs).findSome? fun e => if e.1 == n then some e.2.2 else none

/-! Transcription of the five struct declarations of ShaderTypes.h, in
declaration order and with the declared field order. -/

/-- struct SceneVertex, commented as vertex data for the 3D scene. -/
def SceneVertex : CStruct :=
  { name := "SceneVertex"
    kind := .vertex
    fields := [⟨"position", .float3⟩, ⟨"normal", .float3⟩, ⟨"texCoord", .float2⟩] }

/-- struct SceneUniforms, the uniforms for 3D scene rendering. -/
def SceneUniforms : CStruct :=
  { name := "SceneUniforms"
    kind := .uniform
    fields :=
      [⟨"modelMatrix", .float4x4⟩, ⟨"viewMatrix", .float4x4⟩,
       ⟨"projectionMatrix", .float4x4⟩, ⟨"normalMatrix", .float4x4⟩,
       ⟨"lightPosition", .float3⟩, ⟨"ambientIntensity", .float⟩,
       ⟨"lightColor", .float3⟩, ⟨"diffuseIntensity", .float⟩,
       ⟨"cameraPosition", .float3⟩, ⟨"specularIntensity", .float⟩,
       ⟨"specularPower", .float⟩,
       ⟨"padding1", .float⟩, ⟨"padding2", .float⟩, ⟨"padding3", .float⟩] }

/-- struct CRTUniforms, the uniforms for CRT post-processing. -/
def CRTUniforms : CStruct :=
  { name := "CRTUniforms"
    kind := .uniform
    fields :=
      [⟨"time", .float⟩, ⟨"curvature", .float⟩,
       ⟨"scanlineIntensity", .float⟩, ⟨"scanlineCount", .float⟩,
       ⟨"glowIntensity", .float⟩, ⟨"vignetteStrength", .float⟩,
       ⟨"flickerAmount", .float⟩, ⟨"brightness", .float⟩,
       ⟨"resolution", .float2⟩,
       ⟨"greenTintR", .float⟩, ⟨"greenTintG", .float⟩, ⟨"greenTintB", .float⟩,
       ⟨"phosphorPersistence", .float⟩, ⟨"noiseAmount", .float⟩,
       ⟨"padding", .float⟩] }

/-- struct QuadVertex, the simple fullscreen quad vertex. -/
def QuadVertex : CStruct :=
  { name := "QuadVertex"
    kind := .vertex
    fields := [⟨"position", .float2⟩, ⟨"texCoord", .float2⟩] }

/-- struct MaterialUniforms, the material properties for the monitor body. -/
def MaterialUniforms : CStruct :=
  { name := "MaterialUniforms"
    kind := .uniform
    fields :=
      [⟨"baseColor", .float3⟩, ⟨"roughness", .float⟩, ⟨"metallic", .float⟩,
       ⟨"padding1", .float⟩, ⟨"padding2", .float⟩, ⟨"padding3", .float⟩] }

/-- All struct declarations of the header, in declaration order. -/
def headerStructs : List CStruct :=
  [SceneVertex, SceneUniforms, CRTUniforms, QuadVertex, MaterialUniforms]

/-- The structs the header marks as vertex-buffer formats. -/
def vertexFormats : List CStruct :=
  headerStructs.filter fun s => s.kind == .vertex

/-- The structs the header marks as uniform records. -/
def uniformRecords : List CStruct :=
  headerStructs.filter fun s => s.kind == .uniform

/-- Whether a field name is one of the explicit padding fields of the
header: padding, padding1, padding2 or padding3. -/
def isPaddingName (n : String) : Bool :=
  n == "padding" || n == "padding1" || n == "padding2" || n == "padding3"

/-- The semantic (non-padding) fields of a struct, in declared order. -/
def semanticFields (fs : List CField) : List CField :=
  fs.filter fun f => !isPaddingName f.name

/-- The explicit padding fields of a struct, in declared order. -/
def paddingFields (fs : List CField) : List CField :=
  fs.filter fun f => isPaddingName f.name

/-- Whether every explicit padding field comes after every semantic field:
the declaration is the semantic fields followed by the padding fields. -/
def paddingTrailing (fs : List CField) : Bool :=
  fs == semanticFields fs ++ paddingFields fs

/-- Whether, in the laid-out struct, every 3-component vector field that has
a following field is followed by one whose byte offset is a multiple of 16. -/
def float3Next16 : List (String × CTy × Nat) → Bool
  | [] => true
  | [_] => true
  | e :: e2 :: rest =>
      (e.2.1 != CTy.float3 || e2.2.2 % 16 == 0) && float3Next16 (e2 :: rest)

/-!
Value-level model of the uniform records and of their fixed byte layout.
Every 32-bit lane is modelled by its bit pattern, a natural number; the
layout question (does writing the record at the offsets above and reading
it back preserve every field) is independent of the floating-point
interpretation of the lanes.  Word index = byte offset / 4; every field of
the header is 4-byte aligned.  Implicit padding lanes (the unused fourth
lane of each simd_float3, inter-field gaps and tail padding) serialize as 0
and are ignored on deserialization.
-/

namespace Bytes

/-- One 32-bit lane of a uniform buffer, as its bit pattern. -/
abbrev Word := Nat

/-- Value of a simd_float2: two lanes. -/
structure Float2 where
  x : Word
  y : Word
deriving DecidableEq

/-- Value of a simd_float3: three meaningful lanes (the fourth lane of its
16-byte storage carries no value). -/
structure Float3 where
  x : Word
  y : Word
  z : Word
deriving DecidableEq

/-- Value of a simd_float4: four lanes. -/
structure Float4 where
  x : Word
  y : Word
  z : Word
  w : Word
deriving DecidableEq

/-- Value of a simd_float4x4: four columns. -/
structure Float4x4 where
  c0 : Float4
  c1 : Float4
  c2 : Float4
  c3 : Float4
deriving DecidableEq

/-- The 4 lanes of a simd_float4, in memory order. -/
def Float4.words (v : Float4) : List Word := [v.x, v.y, v.z, v.w]

/-- The 16 lanes of a simd_float4x4, in memory order (column major). -/
def Float4x4.words (m : Float4x4) : List Word :=
  m.c0.words ++ m.c1.words ++ m.c2.words ++ m.c3.words

/-- Field values of a SceneUniforms record. -/
structure SceneUniforms where
  modelMatrix : Float4x4
  viewMatrix : Float4x4
  projectionMatrix : Float4x4
  normalMatrix : Float4x4
  lightPosition : Float3
  ambientIntensity : Word
  lightColor : Float3
  diffuseIntensity : Word
  cameraPosition : Float3
  specularIntensity : Word
  specularPower : Word
  padding1 : Word
  padding2 : Word
  padding3 : Word
deriving DecidableEq

/-- Field values of a CRTUniforms record. -/
structure CRTUniforms where
  time : Word
  curvature : Word
  scanlineIntensity : Word
  scanlineCount : Word
  glowIntensity : Word
  vignetteStrength : Word
  flickerAmount : Word
  brightness : Word
  resolution : Float2
  greenTintR : Word
  greenTintG : Word
  greenTintB : Word
  phosphorPersistence : Word
  noiseAmount : Word
  padding : Word
deriving DecidableEq

/-- Field values of a MaterialUniforms record. -/
structure MaterialUniforms where
  baseColor : Float3
  roughness : Word
  metallic : Word
  padding1 : Word
  padding2 : Word
  padding3 : Word
deriving DecidableEq

/-- Lane `i` of a serialized buffer. -/
def word (ws : List Word) (i : Nat) : Word := ws.getD i 0

/-- Serialize a SceneUniforms record to its 368-byte layout (92 lanes):
matrices at lanes 0, 16, 32, 48; lightPosition at lane 64 (byte 256);
ambientIntensity at lane 68 (byte 272); lightColor at lane 72 (byte 288);
diffuseIntensity at lane 76 (byte 304); cameraPosition at lane 80 (byte
320); specularIntensity, specularPower at lanes 84, 85; padding1..3 at
lanes 86..88; implicit padding lanes are written as 0. -/
def serializeScene (u : SceneUniforms) : List Word :=
  u.modelMatrix.words ++ u.viewMatrix.words ++
  u.projectionMatrix.words ++ u.normalMatrix.words ++
  [u.lightPosition.x, u.lightPosition.y, u.lightPosition.z, 0,
   u.ambientIntensity, 0, 0, 0,
   u.lightColor.x, u.lightColor.y, u.lightColor.z, 0,
   u.diffuseIntensity, 0, 0, 0,
   u.cameraPosition.x, u.cameraPosition.y, u.cameraPosition.z, 0,
   u.specularIntensity, u.specularPower,
   u.padding1, u.padding2, u.padding3, 0, 0, 0]

/-- Read a simd_float4 starting at lane `i`. -/
def readFloat4 (ws : List Word) (i : Nat) : Float4 :=
  ⟨word ws i, word ws (i + 1), word ws (i + 2), word ws (i + 3)⟩

/-- Read a simd_float4x4 starting at lane `i`. -/
def readFloat4x4 (ws : List Word) (i : Nat) : Float4x4 :=
  ⟨readFloat4 ws i, readFloat4 ws (i + 4), readFloat4 ws (i + 8),
   readFloat4 ws (i + 12)⟩

/-- Read a simd_float3 starting at lane `i` (its fourth lane is ignored). -/
def readFloat3 (ws : List Word) (i : Nat) : Float3 :=
  ⟨word ws i, word ws (i + 1), word ws (i + 2)⟩

/-- Deserialize a SceneUniforms record from its byte layout. -/
def deserializeScene (ws : List Word) : SceneUniforms :=
  { modelMatrix := readFloat4x4 ws 0
    viewMatrix := readFloat4x4 ws 16
    projectionMatrix := readFloat4x4 ws 32
    normalMatrix := readFloat4x4 ws 48
    lightPosition := readFloat3 ws 64
    ambientIntensity := word ws 68
    lightColor := readFloat3 ws 72
    diffuseIntensity := word ws 76
    cameraPosition := readFloat3 ws 80
    specularIntensity := word ws 84
    specularPower := word ws 85
    padding1 := word ws 86
    padding2 := word ws 87
    padding3 := word ws 88 }

/-- Serialize a CRTUniforms record to its 64-byte layout (16 lanes): the
eight leading scalars at lanes 0..7, resolution at lanes 8..9 (byte 32),
the tint components at lanes 10..12, phosphorPersistence at lane 13,
noiseAmount at lane 14 and the explicit padding at lane 15. -/
def serializeCRT (u : CRTUniforms) : List Word :=
  [u.time, u.curvature, u.scanlineIntensity, u.scanlineCount,
   u.glowIntensity, u.vignetteStrength, u.flickerAmount, u.brightness,
   u.resolution.x, u.resolution.y,
   u.greenTintR, u.greenTintG, u.greenTintB,
   u.phosphorPersistence, u.noiseAmount, u.padding]

/-- Deserialize a CRTUniforms record from its byte layout. -/
def deserializeCRT (ws : List Word) : CRTUniforms :=
  { time := word ws 0
    curvature := word ws 1
    scanlineIntensity := word ws 2
    scanlineCount := word ws 3
    glowIntensity := word ws 4
    vignetteStrength := word ws 5
    flickerAmount := word ws 6
    brightness := word ws 7
    resolution := ⟨word ws 8, word ws 9⟩
    greenTintR := word ws 10
    greenTintG := word ws 11
    greenTintB := word ws 12
    phosphorPersistence := word ws 13
    noiseAmount := word ws 14
    padding := word ws 15 }

/-- Serialize a MaterialUniforms record to its 48-byte layout (12 lanes):
baseColor at lanes 0..2 (lane 3 unused), roughness and metallic at lanes
4, 5, padding1..3 at lanes 6..8 and tail padding at lanes 9..11. -/
def serializeMaterial (u : MaterialUniforms) : List Word :=
  [u.baseColor.x, u.baseColor.y, u.baseColor.z, 0,
   u.roughness, u.metallic, u.padding1, u.padding2, u.padding3, 0, 0, 0]

/-- Deserialize a MaterialUniforms record from its byte layout. -/
def deserializeMaterial (ws : List Word) : MaterialUniforms :=
  { baseColor := readFloat3 ws 0
    roughness := word ws 4
    metallic := word ws 5
    padding1 := word ws 6
    padding2 := word ws 7
    padding3 := word ws 8 }

end Bytes

/-!
Behavioral model of the CRTPostProcessor.  The repository source contains
only the shared uniform layouts; the post-process pass itself is described
by the specification (section 4.2) as a sequence of per-pixel stages whose
exact curve shapes are an implementation choice within stated invariants.
The definitions below are therefore modelled from the spec, over exact
rational arithmetic; textures are coordinate-indexed color fields and
sampling is evaluation.
-/

namespace Model

/-- A normalized screen-space coordinate. -/
abbrev Coord := ℚ × ℚ

/-- An RGB color with rational channels. -/
abbrev Color := ℚ × ℚ × ℚ

/-- Componentwise product of two colors. -/
def cmul (a b : Color) : Color := (a.1 * b.1, a.2.1 * b.2.1, a.2.2 * b.2.2)

/-- Scale a color by a scalar. -/
def smul (s : ℚ) (c : Color) : Color := (s * c.1, s * c.2.1, s * c.2.2)

/-- Componentwise sum of two colors. -/
def cadd (a b : Color) : Color := (a.1 + b.1, a.2.1 + b.2.1, a.2.2 + b.2.2)

/-- Clamp a scalar to the valid color range [0, 1]. -/
def clamp01 (x : ℚ) : ℚ := max 0 (min 1 x)

/-- Clamp every channel to [0, 1]. -/
def clampColor (c : Color) : Color := (clamp01 c.1, clamp01 c.2.1, clamp01 c.2.2)

/-- Pure black. -/
def black : Color := (0, 0, 0)

/-- The rational one half, in a kernel-evaluable normal form. -/
def half : ℚ := mkRat 1 2

/-- The bright-pass threshold three quarters, in a kernel-evaluable normal
form. -/
def glowThresh : ℚ := mkRat 3 4

/-- Fractional part of a rational number. -/
def fract (x : ℚ) : ℚ := x - ⌊x⌋

/-- A computable periodic wave of period 1 with values in [0, 1], zero at
integers: a triangle wave standing in for the sinusoidal shapes that are an
implementation choice in the spec. -/
def tri (x : ℚ) : ℚ := min (2 * fract x) (2 - 2 * fract x)

/-- Modelled from the spec: the CRTUniforms record as consumed by the
post-process pass, with the per-frame CRT effect parameters as exact
rational values. -/
structure CRTUniformsM where
  time : ℚ
  curvature : ℚ
  scanlineIntensity : ℚ
  scanlineCount : ℚ
  glowIntensity : ℚ
  vignetteStrength : ℚ
  flickerAmount : ℚ
  brightness : ℚ
  resolution : Coord
  greenTintR : ℚ
  greenTintG : ℚ
  greenTintB : ℚ
  phosphorPersistence : ℚ
  noiseAmount : ℚ

/-- Modelled from the spec: barrel distortion remaps the normalized screen
coordinate through a radial function parameterized by curvature, a
radius-squared-based outward bulge about the screen center (1/2, 1/2). -/
def distort (c : ℚ) (uv : Coord) : Coord :=
  (half + (uv.1 - half) * (1 + c * ((uv.1 - half) * (uv.1 - half) + (uv.2 - half) * (uv.2 - half))),
   half + (uv.2 - half) * (1 + c * ((uv.1 - half) * (uv.1 - half) + (uv.2 - half) * (uv.2 - half))))

/-- Whether a remapped coordinate still lies inside the unit square. -/
def inBounds (uv : Coord) : Bool :=
  decide (0 ≤ uv.1) && decide (uv.1 ≤ 1) && decide (0 ≤ uv.2) && decide (uv.2 ≤ 1)

/-- Modelled from the spec: scanline modulation multiplies brightness by a
periodic function of the vertical coordinate with period 1 / scanlineCount,
with amplitude scanlineIntensity (0 means no visible lines). -/
def scanlineFactor (intensity count y : ℚ) : ℚ := 1 - intensity * tri (y * count)

/-- Modelled from the spec: the bright regions of a sample, used as the
source of the glow term (a bright-pass with threshold 3/4). -/
def brightPass (c : Color) : Color :=
  (max (c.1 - glowThresh) 0, max (c.2.1 - glowThresh) 0, max (c.2.2 - glowThresh) 0)

/-- Modelled from the spec: vignette darkens toward the edges as a function
of the squared distance from the center, scaled by vignetteStrength. -/
def vignetteFactor (strength : ℚ) (uv : Coord) : ℚ :=
  1 - strength * ((uv.1 - half) * (uv.1 - half) + (uv.2 - half) * (uv.2 - half))

/-- Modelled from the spec: flicker modulates overall brightness by a
time-varying periodic function scaled by flickerAmount. -/
def flickerFactor (amount t : ℚ) : ℚ := 1 - amount * tri t

/-- Modelled from the spec: deterministic per-pixel noise, a reproducible
function of the pixel coordinate and the time only. -/
def noiseValue (uv : Coord) (t : ℚ) : ℚ := tri (uv.1 * 127 + uv.2 * 311 + t * 53)

/-- Modelled from the spec, section 4.2: the per-pixel CRT post-process.
Given the uniforms, the scene texture, the previous output texture and an
output pixel coordinate, it applies barrel distortion, samples the scene at
the remapped coordinate, then applies scanlines, phosphor persistence
(blend toward the co-located previous output with weight
phosphorPersistence), glow, green tint, vignette, flicker, noise and
brightness, clamping to [0, 1] at the end; a coordinate remapped outside
the unit square yields pure black regardless of the later stages. -/
def crtPixel (u : CRTUniformsM) (scene prevOut : Coord → Color) (uv : Coord) : Color :=
  let duv := distort u.curvature uv
  if inBounds duv then
    let base := scene duv
    let scanned := smul (scanlineFactor u.scanlineIntensity u.scanlineCount uv.2) base
    let persisted :=
      cadd (smul (1 - u.phosphorPersistence) scanned)
        (smul u.phosphorPersistence (prevOut uv))
    let glowed := cadd persisted (smul u.glowIntensity (brightPass persisted))
    let tinted := cmul (u.greenTintR, u.greenTintG, u.greenTintB) glowed
    let vignetted := smul (vignetteFactor u.vignetteStrength uv) tinted
    let flickered := smul (flickerFactor u.flickerAmount u.time) vignetted
    let n := u.noiseAmount * noiseValue uv u.time
    let noised := cadd flickered (n, n, n)
    clampColor (smul u.brightness noised)
  else
    black

/-- The tinted, brightness-scaled value of a color, as produced by a
pipeline in which every other stage is neutral, including the final clamp. -/
def tintBright (u : CRTUniformsM) (c : Color) : Color :=
  clampColor (smul u.brightness (cmul (u.greenTintR, u.greenTintG, u.greenTintB) c))

/-- The constant white texture. -/
def whiteTex : Coord → Color := fun _ => (1, 1, 1)

/-- The constant black texture. -/
def blackTex : Coord → Color := fun _ => black

/-- A valid CRTUniforms record with every effect parameter named by the
neutral-parameters claim set to zero but with full phosphor persistence. -/
def persistCex : CRTUniformsM :=
  { time := 0, curvature := 0, scanlineIntensity := 0, scanlineCount := 300
    glowIntensity := 0, vignetteStrength := 0, flickerAmount := 0
    brightness := 1, resolution := (800, 600)
    greenTintR := 1, greenTintG := 1, greenTintB := 1
    phosphorPersistence := 1, noiseAmount := 0 }

/-- A neutral-parameters record with persistence also zero and a green
tint, used to instantiate the amended neutral-parameters theorem. -/
def neutralU : CRTUniformsM :=
  { time := 0, curvature := 0, scanlineIntensity := 0, scanlineCount := 300
    glowIntensity := 0, vignetteStrength := 0, flickerAmount := 0
    brightness := 1, resolution := (800, 600)
    greenTintR := mkRat 1 10, greenTintG := 1, greenTintB := mkRat 1 10
    phosphorPersistence := 0, noiseAmount := 0 }

/-- A record with strong curvature, used to exhibit an out-of-bounds
remapped coordinate. -/
def curvedU : CRTUniformsM :=
  { time := 0, curvature := 1, scanlineIntensity := half, scanlineCount := 300
    glowIntensity := half, vignetteStrength := half, flickerAmount := half
    brightness := 2, resolution := (800, 600)
    greenTintR := mkRat 1 10, greenTintG := 1, greenTintB := mkRat 1 10
    phosphorPersistence := half, noiseAmount := half }

end Model

/-! Theorems settling the claims. -/

/-- The kernel-evaluable constant half is the rational one half. -/
theorem half_eq : Model.half = 1/2 := by
  rw [Model.half, Rat.mkRat_eq_div]; norm_num

/-- Claim C1, counterexample: SceneVertex does not occupy 32 bytes.  Its
simd_float3 fields are 16 bytes each, so sizeof(SceneVertex) is 48. -/
theorem sceneVertex_not_32_bytes :
    structSize SceneVertex.fields = 48 ∧ structSize SceneVertex.fields ≠ 32 := by
  decide

/-- Claim C1 (amended): SceneVertex consists of position (float3), normal
(float3) and texCoord (float2) and occupies 48 bytes; QuadVertex consists
of position (float2) and texCoord (float2) and occupies 16 bytes; these are
the only two vertex formats the header defines. -/
theorem vertex_formats_layout :
    SceneVertex.fields.map CField.ty = [CTy.float3, CTy.float3, CTy.float2] ∧
    structSize SceneVertex.fields = 48 ∧
    QuadVertex.fields.map CField.ty = [CTy.float2, CTy.float2] ∧
    structSize QuadVertex.fields = 16 ∧
    vertexFormats = [SceneVertex, QuadVertex] := by
  decide

/-- Claim C2: SceneUniforms and MaterialUniforms both end with three
explicit fields named padding1, padding2, padding3; in every uniform record
of the header all explicit padding fields come after the last semantic
field; and every uniform record has a total size that is a multiple of
16 bytes. -/
theorem uniforms_trailing_padding :
    SceneUniforms.fields.drop 11 =
      [⟨"padding1", CTy.float⟩, ⟨"padding2", CTy.float⟩, ⟨"padding3", CTy.float⟩] ∧
    MaterialUniforms.fields.drop 3 =
      [⟨"padding1", CTy.float⟩, ⟨"padding2", CTy.float⟩, ⟨"padding3", CTy.float⟩] ∧
    (uniformRecords.all fun s => paddingTrailing s.fields) = true ∧
    (uniformRecords.all fun s => structSize s.fields % 16 == 0) = true := by
  decide

/-- Claim C3: the semantic fields of CRTUniforms are exactly, and in
exactly the order, the per-frame CRT effect parameters of the data model,
and every field of the record sits at a fixed byte offset of the laid-out
record (the green-tint RGB components being the three fields greenTintR,
greenTintG, greenTintB). -/
theorem crt_uniforms_field_order :
    (semanticFields CRTUniforms.fields).map CField.name =
      ["time", "curvature", "scanlineIntensity", "scanlineCount",
       "glowIntensity", "vignetteStrength", "flickerAmount", "brightness",
       "resolution", "greenTintR", "greenTintG", "greenTintB",
       "phosphorPersistence", "noiseAmount"] ∧
    fieldOffsets CRTUniforms.fields =
      [("time", CTy.float, 0), ("curvature", CTy.float, 4),
       ("scanlineIntensity", CTy.float, 8), ("scanlineCount", CTy.float, 12),
       ("glowIntensity", CTy.float, 16), ("vignetteStrength", CTy.float, 20),
       ("flickerAmount", CTy.float, 24), ("brightness", CTy.float, 28),
       ("resolution", CTy.float2, 32),
       ("greenTintR", CTy.float, 40), ("greenTintG", CTy.float, 44),
       ("greenTintB", CTy.float, 48),
       ("phosphorPersistence", CTy.float, 52), ("noiseAmount", CTy.float, 56),
       ("padding", CTy.float, 60)] := by
  decide

/-- Claim C4: in every uniform record of the header, every 3-component
vector field that is followed by another field is followed by one whose
byte offset is a multiple of 16 (the 16-byte storage of simd_float3
supplies the padding). -/
theorem uniform_float3_next16 :
    (uniformRecords.all fun s => float3Next16 (fieldOffsets s.fields)) = true := by
  decide

set_option maxHeartbeats 2000000 in
/-- Claim C5: for each of the three uniform records, serializing any field
assignment into the fixed byte layout and deserializing those lanes
reproduces every field value exactly. -/
theorem uniform_layout_roundtrip :
    (∀ u : Bytes.SceneUniforms, Bytes.deserializeScene (Bytes.serializeScene u) = u) ∧
    (∀ u : Bytes.CRTUniforms, Bytes.deserializeCRT (Bytes.serializeCRT u) = u) ∧
    (∀ u : Bytes.MaterialUniforms, Bytes.deserializeMaterial (Bytes.serializeMaterial u) = u) :=
  ⟨fun _ => rfl, fun _ => rfl, fun _ => rfl⟩

/-- Claim C6, counterexample: a valid record (positive scanline count,
persistence in [0, 1], nonnegative curvature) with curvature, vignette,
scanline, glow, noise and flicker all zero, but with full phosphor
persistence, produces an output that is not the tinted, brightness-scaled
scene texture: at the center, the previous black output bleeds through. -/
theorem crt_neutral_needs_zero_persistence :
    Model.persistCex.curvature = 0 ∧ Model.persistCex.vignetteStrength = 0 ∧
    Model.persistCex.scanlineIntensity = 0 ∧ Model.persistCex.glowIntensity = 0 ∧
    Model.persistCex.noiseAmount = 0 ∧ Model.persistCex.flickerAmount = 0 ∧
    0 < Model.persistCex.scanlineCount ∧
    0 ≤ Model.persistCex.phosphorPersistence ∧
    Model.persistCex.phosphorPersistence ≤ 1 ∧
    Model.crtPixel Model.persistCex Model.whiteTex Model.blackTex (0, 0) ≠
      Model.tintBright Model.persistCex (Model.whiteTex (0, 0)) :=
  of_decide_eq_true (by with_unfolding_all rfl)

/-- Claim C6 (amended): with curvature, vignette strength, scanline
intensity, glow intensity, noise amount, flicker amount and additionally
phosphor persistence all zero, the post-processed value at every in-bounds
coordinate is the scene sample with only the green tint and the brightness
multiply applied (and the final clamp of the pipeline). -/
theorem crt_neutral_params_output (u : Model.CRTUniformsM)
    (scene prevOut : Model.Coord → Model.Color) (uv : Model.Coord)
    (hc : u.curvature = 0) (hv : u.vignetteStrength = 0)
    (hs : u.scanlineIntensity = 0) (hg : u.glowIntensity = 0)
    (hn : u.noiseAmount = 0) (hf : u.flickerAmount = 0)
    (hp : u.phosphorPersistence = 0)
    (hx0 : 0 ≤ uv.1) (hx1 : uv.1 ≤ 1) (hy0 : 0 ≤ uv.2) (hy1 : uv.2 ≤ 1) :
    Model.crtPixel u scene prevOut uv = Model.tintBright u (scene uv) := by
  obtain ⟨x, y⟩ := uv
  have hd : Model.distort u.curvature (x, y) = (x, y) := by
    rw [hc]; unfold Model.distort
    refine Prod.ext ?_ ?_ <;> ring
  have hb : Model.inBounds (x, y) = true := by
    simp only [Model.inBounds, Bool.and_eq_true, decide_eq_true_eq]
    exact ⟨⟨⟨hx0, hx1⟩, hy0⟩, hy1⟩
  simp [Model.crtPixel, hd, hb, hs, hg, hn, hf, hp, hv, Model.scanlineFactor,
    Model.vignetteFactor, Model.flickerFactor, Model.smul, Model.cadd,
    Model.cmul, Model.brightPass, Model.tintBright, Model.clampColor,
    Model.clamp01]

/-- Claim C6, witness: the amended theorem instantiated at a concrete
neutral record, a constant mid-gray scene and a concrete coordinate. -/
theorem crt_neutral_params_output_w :
    Model.neutralU.phosphorPersistence = 0 ∧
    Model.crtPixel Model.neutralU Model.whiteTex Model.blackTex (0, 1) =
      Model.tintBright Model.neutralU (Model.whiteTex (0, 1)) :=
  ⟨rfl, crt_neutral_params_output Model.neutralU Model.whiteTex
    Model.blackTex (0, 1) rfl rfl rfl rfl rfl rfl rfl
    (of_decide_eq_true (by with_unfolding_all rfl))
    (of_decide_eq_true (by with_unfolding_all rfl))
    (of_decide_eq_true (by with_unfolding_all rfl))
    (of_decide_eq_true (by with_unfolding_all rfl))⟩

/-- Claim C7: whenever the barrel-distortion remap of an output coordinate
leaves the unit square, the post-processed pixel is pure black, for every
uniform record, scene texture and previous output. -/
theorem crt_out_of_bounds_black (u : Model.CRTUniformsM)
    (scene prevOut : Model.Coord → Model.Color) (uv : Model.Coord)
    (h : Model.inBounds (Model.distort u.curvature uv) = false) :
    Model.crtPixel u scene prevOut uv = Model.black := by
  simp only [Model.crtPixel, h]
  simp

/-- Claim C7, witness: with curvature 1 the corner coordinate (1, 1) is
remapped outside the unit square and renders black. -/
theorem crt_out_of_bounds_black_w :
    Model.inBounds (Model.distort Model.curvedU.curvature (1, 1)) = false ∧
    Model.crtPixel Model.curvedU Model.whiteTex Model.blackTex (1, 1) = Model.black :=
  ⟨of_decide_eq_true (by with_unfolding_all rfl),
   crt_out_of_bounds_black Model.curvedU Model.whiteTex Model.blackTex (1, 1)
     (of_decide_eq_true (by with_unfolding_all rfl))⟩

/-- Claim C8: for every curvature value the barrel-distortion remap fixes
the exact screen center (1/2, 1/2). -/
theorem distort_center_fixed (c : ℚ) :
    Model.distort c (1/2, 1/2) = (1/2, 1/2) := by
  simp [Model.distort, half_eq]

/-- Claim C9: CRTUniforms ends with a single explicit field named padding,
which is not one of the semantic per-frame parameters; with it the record
occupies 64 bytes, a multiple of 16, while the semantic fields alone extend
only to byte 60. -/
theorem crt_trailing_padding_layout :
    CRTUniforms.fields =
      semanticFields CRTUniforms.fields ++ [⟨"padding", CTy.float⟩] ∧
    "padding" ∉ (semanticFields CRTUniforms.fields).map CField.name ∧
    fieldsEnd (semanticFields CRTUniforms.fields) 0 = 60 ∧
    structSize CRTUniforms.fields = 64 ∧ 64 % 16 = 0 := by
  decide

/-- Claim C10: the declared field order of SceneUniforms places exactly one
scalar intensity directly after each 3-component vector (ambientIntensity
after lightPosition, diffuseIntensity after lightColor, specularIntensity
after cameraPosition), which differs from the grouped order in which the
data model lists the attributes. -/
theorem scene_uniforms_interleaving :
    SceneUniforms.fields.map CField.name =
      ["modelMatrix", "viewMatrix", "projectionMatrix", "normalMatrix",
       "lightPosition", "ambientIntensity", "lightColor", "diffuseIntensity",
       "cameraPosition", "specularIntensity", "specularPower",
       "padding1", "padding2", "padding3"] ∧
    (semanticFields SceneUniforms.fields).map CField.name ≠
      ["modelMatrix", "viewMatrix", "projectionMatrix", "normalMatrix",
       "lightPosition", "lightColor", "ambientIntensity", "diffuseIntensity",
       "specularIntensity", "specularPower", "cameraPosition"] := by
  decide

end Reactor
